import Mathlib

/-!
Verification of the SonarQube quality-metrics extraction service.

This file gives a shallow embedding of the core of the service
(`sonar_qube_service.py`): the data model, the per-project metric fetcher,
the bulk collector loop, the project classifier, the rating/debt formatting
helpers, the authentication-header generation and the project-listing call.
Remote HTTP calls are modelled by explicit environments describing the
outcome of each call; Python exceptions are modelled with `Except`;
Python machine behavior relevant to the code (string `replace`,
`int`/`float` conversion, `datetime.fromisoformat`, naive/aware datetime
comparison, floor division) is modelled by executable functions.
-/

/-! ## Data model (dataclasses of the source) -/

/-- Configuration for the SonarQube connection (`SonarQubeConfig`). -/
structure SonarQubeConfig where
  url : String
  token : String
  organization : String := ""
deriving DecidableEq

/-- A condition of a quality gate (`QualityGateCondition`). -/
structure QualityGateCondition where
  metric_key : String
  comparator : String
  period_index : Option Int := none
  error_threshold : Option String := none
  actual_value : Option String := none
  status : String := "NONE"
deriving DecidableEq

/-- Quality gate of a project (`QualityGate`). -/
structure QualityGate where
  id : String
  name : String
  status : String
  conditions : List QualityGateCondition
deriving DecidableEq

/-- One measure of a project (`ProjectMeasure`). -/
structure ProjectMeasure where
  metric : String
  value : Option String
  component : String
deriving DecidableEq

/-- A SonarQube project (`SonarProject`). -/
structure SonarProject where
  key : String
  name : String
  qualifier : String
  visibility : String
  last_analysis_date : Option String := none
deriving DecidableEq

/-- Quality metrics of one project (`QualityMetrics`). -/
structure QualityMetrics where
  project_key : String
  project_name : String
  quality_gate_status : String
  coverage : Option String := none
  duplicated_lines_density : Option String := none
  maintainability_rating : Option String := none
  reliability_rating : Option String := none
  security_rating : Option String := none
  vulnerabilities : Option String := none
  bugs : Option String := none
  code_smells : Option String := none
  technical_debt : Option String := none
  lines_of_code : Option String := none
  last_analysis_date : Option String := none
deriving DecidableEq

/-- A Python float value: a real-number idealization of finite floats as
rationals, plus the infinities and nan produced by `float(...)`. -/
inductive PyFloat where
  | num (q : Rat)
  | inf
  | ninf
  | nan
deriving DecidableEq

/-- Classification status of one project (`ProjectClassificationStatus`). -/
structure ProjectClassificationStatus where
  project_key : String
  project_name : String
  last_analysis_date : Option String := none
  lines_of_code : Option Int := none
  coverage : Option PyFloat := none
  duplicated_lines_percent : Option PyFloat := none
  bugs : Option Int := none
  vulnerabilities : Option Int := none
  code_smells : Option Int := none
  has_recent_analysis : Bool := false
  has_metrics : Bool := false
  status : String := "unknown"
deriving DecidableEq

/-- Aggregate classification of all projects (`ProjectClassification`). -/
structure ProjectClassification where
  total : Nat
  active : Nat
  configured_inactive : Nat
  active_projects : List ProjectClassificationStatus
  configured_inactive_projects : List ProjectClassificationStatus
deriving DecidableEq

/-! ## Python string-to-number conversion models -/

/-- Numeric value of an ASCII digit character. -/
def digVal (c : Char) : Nat := c.toNat - 48

/-- Python whitespace stripped by `int(...)` and `float(...)`. -/
def isPyWs (c : Char) : Bool :=
  c = ' ' || c = '\t' || c = '\n' || c = '\r' || c.toNat = 11 || c.toNat = 12

/-- Strip leading and trailing whitespace from a character list. -/
def stripWs (l : List Char) : List Char :=
  ((l.dropWhile isPyWs).reverse.dropWhile isPyWs).reverse

/-- Digit run with single underscores allowed between digits (Python numeric
literal grammar), continuing after an initial digit: returns the
accumulated value together with the number of digits consumed. -/
def udigitsAux : List Char → Nat × Nat → Option (Nat × Nat)
  | [], acc => some acc
  | '_' :: c :: rest, acc =>
      if c.isDigit then udigitsAux rest (acc.1 * 10 + digVal c, acc.2 + 1) else none
  | c :: rest, acc =>
      if c.isDigit then udigitsAux rest (acc.1 * 10 + digVal c, acc.2 + 1) else none

/-- A nonempty digit run with single underscores between digits: value and
number of digits, as accepted inside Python `int(...)`/`float(...)`. -/
def udigitsCnt (l : List Char) : Option (Nat × Nat) :=
  match l with
  | [] => none
  | c :: rest => if c.isDigit then udigitsAux rest (digVal c, 1) else none

/-- Value of a nonempty underscore-separated digit run. -/
def udigits (l : List Char) : Option Nat := (udigitsCnt l).map (·.1)

/-- Model of Python `int(s)` on strings: optional surrounding whitespace,
optional sign, then a nonempty digit run with underscores between digits;
`none` models the `ValueError` raised on any other input. -/
def pyIntParse (s : String) : Option Int :=
  match stripWs s.toList with
  | '+' :: r => (udigits r).map Int.ofNat
  | '-' :: r => (udigits r).map (fun n => -(n : Int))
  | r => (udigits r).map Int.ofNat

/-- Split a character list at the first character satisfying `p`; the
matching character itself is dropped from the second part. -/
def splitOnFirst (p : Char → Bool) (l : List Char) : List Char × Option (List Char) :=
  match l.findIdx? p with
  | none => (l, none)
  | some i => (l.take i, some (l.drop (i + 1)))

/-- Finite-value part of Python `float(s)`: `digits [. digits] [e digits]`
with either integer or fractional digits required, evaluated exactly as a
rational. `none` models `ValueError`. -/
def parseFloatBody (l : List Char) : Option Rat := do
  let (mant, expPart) := splitOnFirst (fun c => c = 'e' || c = 'E') l
  let (ip, fpOpt) := splitOnFirst (· = '.') mant
  let (ipVal, ipCnt) ← if ip.isEmpty then some (0, 0) else udigitsCnt ip
  let (fpVal, fpCnt) ←
    match fpOpt with
    | none => some (0, 0)
    | some [] => some (0, 0)
    | some fp => udigitsCnt fp
  if ipCnt = 0 && fpCnt = 0 then none else
  let e : Int ←
    match expPart with
    | none => some 0
    | some ('+' :: r) => (udigits r).map Int.ofNat
    | some ('-' :: r) => (udigits r).map (fun n => -(n : Int))
    | some r => (udigits r).map Int.ofNat
  let base : Rat := (ipVal : Rat) + (fpVal : Rat) / ((10 : Rat) ^ fpCnt)
  some (base * (if 0 ≤ e then (10 : Rat) ^ e.toNat else 1 / (10 : Rat) ^ (-e).toNat))

/-- Negation of a Python float value. -/
def negFloat : PyFloat → PyFloat
  | .num q => .num (-q)
  | .inf => .ninf
  | .ninf => .inf
  | .nan => .nan

/-- Unsigned part of Python `float(s)`: special values or a finite decimal. -/
def pyFloatCore (r : List Char) : Option PyFloat :=
  let low := r.map Char.toLower
  if low = "inf".toList || low = "infinity".toList then some .inf
  else if low = "nan".toList then some .nan
  else (parseFloatBody r).map .num

/-- Model of Python `float(s)`: optional whitespace, optional sign, then a
special value or a decimal literal; `none` models `ValueError`. -/
def pyFloatParse (s : String) : Option PyFloat :=
  match stripWs s.toList with
  | '+' :: r => pyFloatCore r
  | '-' :: r => (pyFloatCore r).map negFloat
  | r => pyFloatCore r

/-- Model of Python `str.isdigit()` restricted to ASCII content: true iff
the string is nonempty and all characters are decimal digits. -/
def pyIsDigitStr (s : String) : Bool :=
  !s.toList.isEmpty && s.toList.all Char.isDigit

/-- Decimal value of an all-digit string, as read by `int(...)` after an
`isdigit` guard. -/
def digitsStrVal (s : String) : Nat :=
  s.toList.foldl (fun a c => a * 10 + digVal c) 0

/-! ## Formatting helpers (`format_technical_debt`, `get_rating_label`) -/

/-- `SonarQubeService.format_technical_debt`: format technical debt minutes
as days (8-hour days) and hours; `N/A` for a falsy or unconvertible input. -/
def format_technical_debt (minutes : Option String) : String :=
  match minutes with
  | none => "N/A"
  | some s =>
    if s = "" then "N/A" else
    match pyIntParse s with
    | none => "N/A"
    | some total_minutes =>
      let days := Int.fdiv total_minutes (8 * 60)
      let hours := Int.fdiv (Int.fmod total_minutes (8 * 60)) 60
      if 0 < days then toString days ++ "j " ++ toString hours ++ "h"
      else toString hours ++ "h"

/-- The numeric-rating-to-letter dictionary of `get_rating_label`. -/
def ratings : List (String × String) :=
  [("1", "A"), ("2", "B"), ("3", "C"), ("4", "D"), ("5", "E")]

/-- `SonarQubeService.get_rating_label`: convert a numeric rating to a
letter; falsy input gives `N/A`; unknown ratings pass through. -/
def get_rating_label (rating : Option String) : String :=
  match rating with
  | none => "N/A"
  | some r => if r = "" then "N/A" else (ratings.lookup r).getD r

/-! ## Python datetime model -/

/-- A Python `datetime`: wall-clock microseconds since the epoch as written,
plus an optional UTC offset in microseconds (`none` = naive, `some` =
timezone-aware). -/
structure PyDateTime where
  us : Int
  offUs : Option Int
deriving DecidableEq

/-- Gregorian leap-year rule. -/
def isLeap (y : Nat) : Bool :=
  y % 4 = 0 && (y % 100 ≠ 0 || y % 400 = 0)

/-- Number of days in a month of a given year. -/
def daysInMonth (y m : Nat) : Nat :=
  match m with
  | 1 => 31 | 2 => if isLeap y then 29 else 28 | 3 => 31 | 4 => 30
  | 5 => 31 | 6 => 30 | 7 => 31 | 8 => 31 | 9 => 30 | 10 => 31
  | 11 => 30 | 12 => 31 | _ => 0

/-- Days from the civil epoch 1970-01-01 for a Gregorian date with
`y ≥ 1` (standard days-from-civil computation). -/
def daysFromCivil (y m d : Nat) : Int :=
  let y' := if m ≤ 2 then y - 1 else y
  let era := y' / 400
  let yoe := y' % 400
  let mp := (m + 9) % 12
  let doy := (153 * mp + 2) / 5 + d - 1
  let doe := yoe * 365 + yoe / 4 - yoe / 100 + doy
  ((era * 146097 + doe : Nat) : Int) - 719468

/-- Wall-clock microseconds since the epoch of a date-time. -/
def toUs (y m d hh mi ss : Nat) : Int :=
  daysFromCivil y m d * 86400000000 + (((hh * 60 + mi) * 60 + ss : Nat) : Int) * 1000000

/-- Two ASCII digits as a number. -/
def digit2 (a b : Char) : Option Nat :=
  if a.isDigit && b.isDigit then some (digVal a * 10 + digVal b) else none

/-- Fold an all-digit character list to its decimal value. -/
def digitsToNat (l : List Char) : Nat :=
  l.foldl (fun a c => a * 10 + digVal c) 0

/-- `HH[:MM[:SS[.fff or .ffffff]]]` as parsed by CPython
`_parse_hh_mm_ss_ff`: hours, minutes, seconds, microseconds. -/
def parseHMSF : List Char → Option (Nat × Nat × Nat × Nat)
  | [h1, h2] => (digit2 h1 h2).map (fun h => (h, 0, 0, 0))
  | [h1, h2, ':', m1, m2] => do
      let h ← digit2 h1 h2
      let m ← digit2 m1 m2
      pure (h, m, 0, 0)
  | [h1, h2, ':', m1, m2, ':', s1, s2] => do
      let h ← digit2 h1 h2
      let m ← digit2 m1 m2
      let s ← digit2 s1 s2
      pure (h, m, s, 0)
  | h1 :: h2 :: ':' :: m1 :: m2 :: ':' :: s1 :: s2 :: '.' :: fs => do
      let h ← digit2 h1 h2
      let m ← digit2 m1 m2
      let s ← digit2 s1 s2
      if fs.length = 3 && fs.all Char.isDigit then pure (h, m, s, digitsToNat fs * 1000)
      else if fs.length = 6 && fs.all Char.isDigit then pure (h, m, s, digitsToNat fs)
      else none
  | _ => none

/-- Time-of-day and timezone part of `fromisoformat`: the timezone starts
at the first `-`, else the first `+` (CPython order); the timezone string
must have length 5, 8 or 15, and the resulting offset must be strictly
less than 24 hours in magnitude. Returns time-of-day microseconds and the
optional offset in microseconds. -/
def parseTimeAndTz (tcs : List Char) : Option (Nat × Option Int) :=
  let tzIdx :=
    match tcs.findIdx? (· = '-') with
    | some i => some i
    | none => tcs.findIdx? (· = '+')
  match tzIdx with
  | none => do
    let (h, m, s, f) ← parseHMSF tcs
    if h ≤ 23 && m ≤ 59 && s ≤ 59 then
      pure (((h * 60 + m) * 60 + s) * 1000000 + f, none)
    else none
  | some i => do
    let sign : Int := if tcs.getD i ' ' = '-' then -1 else 1
    let (h, m, s, f) ← parseHMSF (tcs.take i)
    if !(h ≤ 23 && m ≤ 59 && s ≤ 59) then none else
    let tzstr := tcs.drop (i + 1)
    if !(tzstr.length = 5 || tzstr.length = 8 || tzstr.length = 15) then none else
    let (th, tm, ts, tf) ← parseHMSF tzstr
    let offUs : Int := sign * (((th * 3600 + tm * 60 + ts : Nat) : Int) * 1000000 + (tf : Nat))
    if offUs.natAbs < 86400000000 then
      pure (((h * 60 + m) * 60 + s) * 1000000 + f, some offUs)
    else none

/-- Model of CPython (≤ 3.10) `datetime.fromisoformat`: ten characters
`YYYY-MM-DD` (validated), then optionally one separator character of any
kind followed by a nonempty time (and optional timezone) part. `none`
models `ValueError`. -/
def pyFromIsoChars (l : List Char) : Option PyDateTime :=
  match l with
  | y1 :: y2 :: y3 :: y4 :: '-' :: mo1 :: mo2 :: '-' :: d1 :: d2 :: rest =>
    if !(y1.isDigit && y2.isDigit && y3.isDigit && y4.isDigit) then none else
    let y := ((digVal y1 * 10 + digVal y2) * 10 + digVal y3) * 10 + digVal y4
    match digit2 mo1 mo2, digit2 d1 d2 with
    | some mo, some d =>
      if !(1 ≤ y && 1 ≤ mo && mo ≤ 12 && 1 ≤ d && d ≤ daysInMonth y mo) then none else
      match rest with
      | [] => some ⟨daysFromCivil y mo d * 86400000000, none⟩
      | _ :: tcs =>
        match parseTimeAndTz tcs with
        | none => none
        | some (tus, off) => some ⟨daysFromCivil y mo d * 86400000000 + (tus : Int), off⟩
    | _, _ => none
  | _ => none

/-- `datetime.fromisoformat` on strings. -/
def pyFromIso (s : String) : Option PyDateTime := pyFromIsoChars s.toList

/-- Python `>` on datetimes: naive datetimes compare by wall clock, aware
datetimes compare by UTC instant, and comparing a naive with an aware
datetime raises `TypeError` (modelled as `Except.error`). -/
def pyGt (a b : PyDateTime) : Except Unit Bool :=
  match a.offUs, b.offUs with
  | none, none => .ok (decide (b.us < a.us))
  | some x, some y => .ok (decide (b.us - y < a.us - x))
  | _, _ => .error ()

/-! ## The date-string normalization done by the classifier -/

/-- The replacement text `+00:00`. -/
def plusColon : List Char := ['+', '0', '0', ':', '0', '0']

/-- Model of Python `s.replace('Z', '+00:00')`: every occurrence of the
single character `Z` becomes `+00:00`. -/
def replaceZChars : List Char → List Char
  | [] => []
  | c :: rest => (if c = 'Z' then plusColon else [c]) ++ replaceZChars rest

/-- Model of Python `s.replace('+0000', '+00:00')`: left-to-right,
non-overlapping replacement of the five-character pattern `+0000`. -/
def replacePlus0000 : List Char → List Char
  | '+' :: '0' :: '0' :: '0' :: '0' :: rest => plusColon ++ replacePlus0000 rest
  | c :: rest => c :: replacePlus0000 rest
  | [] => []

/-- The classifier's date normalization:
`s.replace('Z', '+00:00').replace('+0000', '+00:00')`. -/
def normalizeDateChars (l : List Char) : List Char :=
  replacePlus0000 (replaceZChars l)

/-- Date normalization on strings. -/
def normalizeDate (s : String) : String := String.mk (normalizeDateChars s.toList)

/-! ## Measures and the per-project classifier (`classify_single_project`) -/

deriving instance DecidableEq for Except

/-- The dictionary comprehension building the metric-to-value map: a later
measure for the same metric overwrites an earlier one, and a stored `None`
value is indistinguishable from an absent key under `dict.get`. -/
def measureLookup (ms : List ProjectMeasure) (k : String) : Option String :=
  match (ms.reverse.find? (fun m => m.metric = k)) with
  | none => none
  | some m => m.value

/-- The `int(v) if v and v.isdigit() else 0` conversion pattern of the
classifier. -/
def intDigitMeasure (v : Option String) : Int :=
  match v with
  | none => 0
  | some s => if pyIsDigitStr s then (digitsStrVal s : Int) else 0

/-- The `float(v) if v else None` conversion pattern of the classifier; a
nonempty value that `float` rejects raises (`Except.error`), escaping to
the per-project exception handler. -/
def floatMeasure (v : Option String) : Except Unit (Option PyFloat) :=
  match v with
  | none => .ok none
  | some s =>
    if s = "" then .ok none else
    match pyFloatParse s with
    | none => .error ()
    | some f => .ok (some f)

/-- The recency check of `classify_single_project`: falsy date gives
`False`; an unparseable date is caught (`ValueError`) and gives `False`;
a parsed date is compared with `>` against the threshold, which raises
`TypeError` (uncaught here) when exactly one side is timezone-aware. -/
def hasRecentCompute (thirty_days_ago : PyDateTime) (lad : Option String) : Except Unit Bool :=
  match lad with
  | none => .ok false
  | some s =>
    if s = "" then .ok false else
    match pyFromIsoChars (normalizeDateChars s.toList) with
    | none => .ok false
    | some dt => pyGt dt thirty_days_ago

/-- The classification record returned by the `except` handlers: only key,
name and the `configured_inactive` status; every other field keeps its
dataclass default. -/
def defaultInactive (p : SonarProject) : ProjectClassificationStatus :=
  { project_key := p.key, project_name := p.name, status := "configured_inactive" }

/-- The body of `classify_single_project` after a successful measures
fetch, up to its surrounding exception handler: convert the measures,
compute the two booleans and build the classification record. An
`Except.error` is an exception reaching the handler. -/
def classifyBody (thirty_days_ago : PyDateTime) (p : SonarProject)
    (measures : List ProjectMeasure) : Except Unit ProjectClassificationStatus := do
  let mv := measureLookup measures
  let lines_of_code_int := intDigitMeasure (mv "ncloc")
  let coverage_float ← floatMeasure (mv "coverage")
  let duplicated_lines_float ← floatMeasure (mv "duplicated_lines_density")
  let bugs_int := intDigitMeasure (mv "bugs")
  let vulnerabilities_int := intDigitMeasure (mv "vulnerabilities")
  let code_smells_int := intDigitMeasure (mv "code_smells")
  let has_recent_analysis ← hasRecentCompute thirty_days_ago p.last_analysis_date
  let has_metrics := decide (0 < lines_of_code_int)
  .ok { project_key := p.key
        project_name := p.name
        last_analysis_date := p.last_analysis_date
        lines_of_code := some lines_of_code_int
        coverage := coverage_float
        duplicated_lines_percent := duplicated_lines_float
        bugs := some bugs_int
        vulnerabilities := some vulnerabilities_int
        code_smells := some code_smells_int
        has_recent_analysis := has_recent_analysis
        has_metrics := has_metrics
        status := if has_recent_analysis && has_metrics then "active"
                  else "configured_inactive" }

/-- `classify_single_project`: the fetch outcome is either an exception
raised inside `get_project_measures` (beyond the request errors it
swallows itself) or a list of measures; any exception from the fetch or
the body is caught and yields the default inactive record. -/
def classify_single_project (thirty_days_ago : PyDateTime) (p : SonarProject)
    (fetch : Except Unit (List ProjectMeasure)) : ProjectClassificationStatus :=
  match fetch with
  | .error _ => defaultInactive p
  | .ok measures =>
    match classifyBody thirty_days_ago p measures with
    | .error _ => defaultInactive p
    | .ok st => st

/-! ## The classification collector (`classify_projects`) -/

/-- Outcome of one submitted classification future, as seen at
`future.result(timeout=60)`: either the worker completed
`classify_single_project` with the given fetch outcome, or `result`
itself raised (timeout or executor error). -/
inductive ClassifyItem where
  | done (fetch : Except Unit (List ProjectMeasure))
  | raised
deriving DecidableEq

/-- The record the main loop of `classify_projects` obtains for one
project: the worker's record on completion, the default inactive record
when `future.result` raised. -/
def classifyStep (thirty_days_ago : PyDateTime) (env : SonarProject → ClassifyItem)
    (p : SonarProject) : ProjectClassificationStatus :=
  match env p with
  | .done fetch => classify_single_project thirty_days_ago p fetch
  | .raised => defaultInactive p

/-- The result-gathering loop of `classify_projects`: each obtained record
is appended to the active list when its status is `active`, otherwise to
the configured-inactive list. -/
def classifyFold (thirty_days_ago : PyDateTime) (env : SonarProject → ClassifyItem)
    (projects : List SonarProject) :
    List ProjectClassificationStatus × List ProjectClassificationStatus :=
  projects.foldl
    (fun acc p =>
      let st := classifyStep thirty_days_ago env p
      if st.status = "active" then (acc.1 ++ [st], acc.2) else (acc.1, acc.2 ++ [st]))
    ([], [])

/-- The 30-day threshold computed by `classify_projects`:
`datetime.now() - timedelta(days=30)`, a naive datetime. -/
def thirtyDaysAgo (nowUs : Int) : PyDateTime :=
  ⟨nowUs - 30 * 86400000000, none⟩

/-- `SonarQubeService.classify_projects`: propagate a listing error, treat
an empty listing as a batch error, otherwise classify every project using
the fold above and aggregate counts and lists. -/
def classify_projects (nowUs : Int) (listing : Except String (List SonarProject))
    (env : SonarProject → ClassifyItem) : Except String ProjectClassification :=
  match listing with
  | .error e => .error e
  | .ok projects =>
    if projects = [] then .error "Impossible de récupérer les projets" else
    let tda := thirtyDaysAgo nowUs
    let lists := classifyFold tda env projects
    .ok { total := projects.length
          active := lists.1.length
          configured_inactive := lists.2.length
          active_projects := lists.1
          configured_inactive_projects := lists.2 }

/-! ## The per-project metric fetcher (`get_project_quality_metrics_safe`) -/

/-- Outcomes of the two dependent calls made for one project. The API
client functions swallow request errors themselves (returning `none` or
`[]`), but other exceptions (malformed payloads, missing keys) escape
them; `Except.error` covers those. -/
structure FetchEnv where
  gate : Except Unit (Option QualityGate)
  measures : Except Unit (List ProjectMeasure)
deriving DecidableEq

/-- Building the `QualityMetrics` record from the gate and the measures:
gate status defaults to `NONE` without gate data, each measure field is
the map lookup (absent keys give `None`). -/
def buildQualityMetrics (p : SonarProject) (quality_gate : Option QualityGate)
    (ms : List ProjectMeasure) : QualityMetrics :=
  { project_key := p.key
    project_name := p.name
    quality_gate_status := match quality_gate with | none => "NONE" | some g => g.status
    coverage := measureLookup ms "coverage"
    duplicated_lines_density := measureLookup ms "duplicated_lines_density"
    maintainability_rating := measureLookup ms "sqale_rating"
    reliability_rating := measureLookup ms "reliability_rating"
    security_rating := measureLookup ms "security_rating"
    vulnerabilities := measureLookup ms "vulnerabilities"
    bugs := measureLookup ms "bugs"
    code_smells := measureLookup ms "code_smells"
    technical_debt := measureLookup ms "sqale_index"
    lines_of_code := measureLookup ms "ncloc"
    last_analysis_date := p.last_analysis_date }

/-- The try-block of `get_project_quality_metrics_safe`: the two calls in
sequence, then the record construction. -/
def getSafeBody (fe : FetchEnv) (p : SonarProject) : Except Unit QualityMetrics := do
  let quality_gate ← fe.gate
  let measures ← fe.measures
  .ok (buildQualityMetrics p quality_gate measures)

/-- `get_project_quality_metrics_safe`: any exception in the try-block is
caught and converted to a bare `None` return value. -/
def get_project_quality_metrics_safe (fe : FetchEnv) (p : SonarProject) :
    Option QualityMetrics :=
  match getSafeBody fe p with
  | .ok m => some m
  | .error _ => none

/-! ## The bulk metric collector (`get_all_projects_quality_metrics`) -/

/-- Outcome of one submitted fetch future, as seen at
`future.result(timeout=60)`: the worker completed the safe fetch under
the given call outcomes, or `result` raised (timeout or executor error). -/
inductive ItemRes where
  | completed (fe : FetchEnv)
  | timeout
deriving DecidableEq

/-- The result-gathering loop of `get_all_projects_quality_metrics`: a
truthy (`some`) metrics record is appended to the output; a `None` return
and a raising `future.result` only advance the progress bar. The second
component counts `pbar.update(1)` calls. -/
def collectQualityMetrics (env : SonarProject → ItemRes)
    (projects : List SonarProject) : List QualityMetrics × Nat :=
  projects.foldl
    (fun acc p =>
      match env p with
      | .completed fe =>
        match get_project_quality_metrics_safe fe p with
        | some m => (acc.1 ++ [m], acc.2 + 1)
        | none => (acc.1, acc.2 + 1)
      | .timeout => (acc.1, acc.2 + 1))
    ([], 0)

/-! ## Authentication headers (`_get_auth_headers`) -/

/-- Model of Python `s.rstrip('/')`. -/
def rstripSlash (s : String) : String :=
  String.mk ((s.toList.reverse.dropWhile (· = '/')).reverse)

/-- UTF-8 encoding of one character, as `"...".encode('utf-8')` does. -/
def utf8Encode (c : Char) : List Nat :=
  let n := c.toNat
  if n < 128 then [n]
  else if n < 2048 then [192 + n / 64, 128 + n % 64]
  else if n < 65536 then [224 + n / 4096, 128 + n / 64 % 64, 128 + n % 64]
  else [240 + n / 262144, 128 + n / 4096 % 64, 128 + n / 64 % 64, 128 + n % 64]

/-- The base64 alphabet. -/
def b64Alphabet : List Char :=
  "ABCDEFGHIJKLMNOPQRSTUVWXYZabcdefghijklmnopqrstuvwxyz0123456789+/".toList

/-- Character of a six-bit group. -/
def b64Char (n : Nat) : Char := b64Alphabet.getD n 'A'

/-- Standard base64 of a byte list, with padding. -/
def b64encodeBytes : List Nat → List Char
  | [] => []
  | [a] => [b64Char (a / 4), b64Char (a % 4 * 16), '=', '=']
  | [a, b] => [b64Char (a / 4), b64Char (a % 4 * 16 + b / 16), b64Char (b % 16 * 4), '=']
  | a :: b :: c :: rest =>
    b64Char (a / 4) :: b64Char (a % 4 * 16 + b / 16) :: b64Char (b % 16 * 4 + c / 64)
      :: b64Char (c % 64) :: b64encodeBytes rest

/-- `base64.b64encode(s.encode('utf-8'))` as a string. -/
def b64encode (s : String) : String :=
  String.mk (b64encodeBytes (s.toList.flatMap utf8Encode))

/-- The HTTP headers built by `_get_auth_headers`. -/
structure HttpHeaders where
  authorization : String
  contentType : String
  accept : String
deriving DecidableEq

/-- `SonarQubeService._get_auth_headers`: raises without configuration;
otherwise strips trailing slashes from the stored URL — writing the
normalized URL back into the stored configuration — and returns the new
stored configuration together with the basic-auth headers. -/
def get_auth_headers (config : Option SonarQubeConfig) :
    Except String (SonarQubeConfig × HttpHeaders) :=
  match config with
  | none => .error "Configuration non trouvée"
  | some c =>
    let c2 := { c with url := rstripSlash c.url }
    .ok (c2,
      { authorization := "Basic " ++ b64encode (c2.token ++ ":")
        contentType := "application/json"
        accept := "application/json" })

/-! ## Project listing (`get_all_projects`) -/

/-- One component in the project-search response of the server. -/
structure ServerComponent where
  key : String
  name : String
  qualifier : String
  visibility : String
  lastAnalysisDate : Option String := none
deriving DecidableEq

/-- Modelled from the spec: the remote API client's project-search
endpoint (an external collaborator, not part of this repository) returns
one page of at most `ps` components out of the server's full project
list. -/
def serverSearch (state : List ServerComponent) (ps : Nat) : List ServerComponent :=
  state.take ps

/-- `SonarQubeService.get_all_projects`: without configuration an error;
otherwise one single search request with page-size parameter `ps = 500`
(there is no pagination loop), whose components are converted to
`SonarProject` records. -/
def get_all_projects (config : Option SonarQubeConfig)
    (state : List ServerComponent) : Except String (List SonarProject) :=
  match config with
  | none => .error "Configuration non trouvée"
  | some _ =>
    .ok ((serverSearch state 500).map (fun c =>
      { key := c.key, name := c.name, qualifier := c.qualifier,
        visibility := c.visibility, last_analysis_date := c.lastAnalysisDate }))

/-! ## Concrete fixtures used by witnesses and counterexamples -/

/-- A project whose SonarQube-format analysis date lies five days before
the fixed invocation time below. -/
def pRecent : SonarProject :=
  { key := "proj-recent", name := "Recent", qualifier := "TRK", visibility := "public",
    last_analysis_date := some "2025-10-07T10:30:45+0000" }

/-- A measures response carrying 1200 lines of code. -/
def msNcloc : List ProjectMeasure :=
  [{ metric := "ncloc", value := some "1200", component := "proj-recent" }]

/-- The classifier threshold for an invocation at 2025-10-12T00:00:00. -/
def tdaOct : PyDateTime := thirtyDaysAgo (toUs 2025 10 12 0 0 0)

/-- A fetch environment in which both API calls raise. -/
def feFail : FetchEnv := ⟨.error (), .error ()⟩

/-- A fetch environment with no gate data and no measures. -/
def feEmpty : FetchEnv := ⟨.ok none, .ok []⟩

/-- Fixture project A. -/
def projA : SonarProject := ⟨"pa", "PA", "TRK", "public", none⟩

/-- Fixture project B. -/
def projB : SonarProject := ⟨"pb", "PB", "TRK", "public", none⟩

/-- Fixture project for the collector claims. -/
def projC : SonarProject := ⟨"pc", "PC", "TRK", "public", none⟩

/-- Fixture project for the classifier aggregate claims. -/
def projD : SonarProject := ⟨"pd", "PD", "TRK", "public", none⟩

/-- The aggregate produced by classifying `[projD]` when its future raises. -/
def classD : ProjectClassification :=
  ⟨1, 0, 1, [], [defaultInactive projD]⟩

/-- A stored configuration whose URL has a trailing slash. -/
def cfgSlash : SonarQubeConfig := ⟨"https://sonar.example.com/", "tok", ""⟩

/-- The headers generated for `cfgSlash`. -/
def hdrTok : HttpHeaders := ⟨"Basic " ++ b64encode "tok:", "application/json", "application/json"⟩

/-- A server component fixture. -/
def comp0 : ServerComponent := ⟨"k", "n", "TRK", "public", none⟩

/-- A server hosting 600 projects. -/
def state600 : List ServerComponent := List.replicate 600 comp0

/-- The conversion from a search component to a project record, as done
inside `get_all_projects`. -/
def componentToProject (c : ServerComponent) : SonarProject :=
  { key := c.key, name := c.name, qualifier := c.qualifier,
    visibility := c.visibility, last_analysis_date := c.lastAnalysisDate }

/-- The configuration stored after the URL normalization of `cfgSlash`. -/
def cfgStripped : SonarQubeConfig := ⟨"https://sonar.example.com", "tok", ""⟩

/-- The listing returned for the 600-project server. -/
def listing500 : List SonarProject := (serverSearch state600 500).map componentToProject

/-! ## Helper lemmas -/

/-- `replace('Z', ...)` leaves a prefix without `Z` untouched. -/
theorem replaceZChars_notin {l : List Char} (h : 'Z' ∉ l) (t : List Char) :
    replaceZChars (l ++ t) = l ++ replaceZChars t := by
  induction l with
  | nil => rfl
  | cons c r ih =>
    have hc : c ≠ 'Z' := fun hc => h (hc ▸ List.mem_cons_self c r)
    have hr : 'Z' ∉ r := fun hm => h (List.mem_cons_of_mem c hm)
    simp [replaceZChars, if_neg hc, ih hr]

/-- `replace('+0000', ...)` passes over a character other than `+`. -/
theorem replacePlus0000_cons_ne {c : Char} (h : c ≠ '+') (t : List Char) :
    replacePlus0000 (c :: t) = c :: replacePlus0000 t := by
  rw [replacePlus0000.eq_def]
  split <;> simp_all

/-- `replace('+0000', ...)` leaves a prefix without `+` untouched. -/
theorem replacePlus0000_notin {l : List Char} (h : '+' ∉ l) (t : List Char) :
    replacePlus0000 (l ++ t) = l ++ replacePlus0000 t := by
  induction l with
  | nil => rfl
  | cons c r ih =>
    have hc : c ≠ '+' := fun hc => h (hc ▸ List.mem_cons_self c r)
    have hr : '+' ∉ r := fun hm => h (List.mem_cons_of_mem c hm)
    rw [List.cons_append, replacePlus0000_cons_ne hc, ih hr]
    rfl

/-- Dropping a satisfied prefix twice is the same as dropping it once. -/
theorem dropWhile_idem (p : Char → Bool) (l : List Char) :
    List.dropWhile p (List.dropWhile p l) = List.dropWhile p l := by
  induction l with
  | nil => rfl
  | cons a t ih =>
    by_cases hp : p a
    · simp [List.dropWhile_cons, hp, ih]
    · simp [List.dropWhile_cons, hp]

/-- Stripping trailing slashes is idempotent. -/
theorem rstripSlash_idem (s : String) : rstripSlash (rstripSlash s) = rstripSlash s := by
  unfold rstripSlash
  simp [List.reverse_reverse, dropWhile_idem]

/-- The classification fold appends, to each accumulator, exactly the
per-project records filtered by the `active` status test. -/
theorem classifyFold_aux (tda : PyDateTime) (env : SonarProject → ClassifyItem) :
    ∀ (ps : List SonarProject) (a i : List ProjectClassificationStatus),
    ps.foldl
      (fun acc p =>
        let st := classifyStep tda env p
        if st.status = "active" then (acc.1 ++ [st], acc.2) else (acc.1, acc.2 ++ [st]))
      (a, i)
    = (a ++ (ps.map (classifyStep tda env)).filter (fun st => decide (st.status = "active")),
       i ++ (ps.map (classifyStep tda env)).filter (fun st => !decide (st.status = "active"))) := by
  intro ps
  induction ps with
  | nil => intro a i; simp
  | cons p t ih =>
    intro a i
    by_cases hs : (classifyStep tda env p).status = "active"
    · simp [List.foldl_cons, hs, List.filter_cons, ih]
    · simp [List.foldl_cons, hs, List.filter_cons, ih]

/-- Closed form of `classifyFold`: the two lists are the status-filtered
images of the per-project classification step. -/
theorem classifyFold_eq (tda : PyDateTime) (env : SonarProject → ClassifyItem)
    (ps : List SonarProject) :
    classifyFold tda env ps
    = ((ps.map (classifyStep tda env)).filter (fun st => decide (st.status = "active")),
       (ps.map (classifyStep tda env)).filter (fun st => !decide (st.status = "active"))) := by
  unfold classifyFold
  rw [classifyFold_aux]
  simp

/-- The collector fold appends exactly the successful per-project fetch
results and counts one progress update per project. -/
theorem collect_aux (env : SonarProject → ItemRes) :
    ∀ (ps : List SonarProject) (acc : List QualityMetrics) (cnt : Nat),
    ps.foldl
      (fun acc p =>
        match env p with
        | .completed fe =>
          match get_project_quality_metrics_safe fe p with
          | some m => (acc.1 ++ [m], acc.2 + 1)
          | none => (acc.1, acc.2 + 1)
        | .timeout => (acc.1, acc.2 + 1))
      (acc, cnt)
    = (acc ++ ps.filterMap (fun p =>
         match env p with
         | .completed fe => get_project_quality_metrics_safe fe p
         | .timeout => none),
       cnt + ps.length) := by
  intro ps
  induction ps with
  | nil => intro acc cnt; simp
  | cons p t ih =>
    intro acc cnt
    rcases he : env p with fe | _
    · rcases hm : get_project_quality_metrics_safe fe p with _ | m
      · simp [List.foldl_cons, he, hm, List.filterMap_cons, ih]
        omega
      · simp [List.foldl_cons, he, hm, List.filterMap_cons, ih]
        omega
    · simp [List.foldl_cons, he, List.filterMap_cons, ih]
      omega

/-- Closed form of `collectQualityMetrics`. -/
theorem collect_eq (env : SonarProject → ItemRes) (ps : List SonarProject) :
    collectQualityMetrics env ps
    = (ps.filterMap (fun p =>
         match env p with
         | .completed fe => get_project_quality_metrics_safe fe p
         | .timeout => none),
       ps.length) := by
  unfold collectQualityMetrics
  rw [collect_aux]
  simp

/-! ## Claims -/

/-- Claim C1: for every input project list, `classify_projects` places
every project in exactly one of the two output lists, the aggregate
satisfies `total = active + configured_inactive = number of input
projects`, and a project whose per-project classification raises or times
out is recorded as configured-inactive rather than dropped. -/
theorem classify_projects_partition (nowUs : Int) (env : SonarProject → ClassifyItem)
    (projects : List SonarProject) (c : ProjectClassification)
    (h : classify_projects nowUs (.ok projects) env = .ok c) :
    c.total = projects.length ∧
    c.active = c.active_projects.length ∧
    c.configured_inactive = c.configured_inactive_projects.length ∧
    c.active + c.configured_inactive = c.total ∧
    (c.active_projects ++ c.configured_inactive_projects).Perm
      (projects.map (classifyStep (thirtyDaysAgo nowUs) env)) ∧
    (∀ p ∈ projects, env p = .raised →
      defaultInactive p ∈ c.configured_inactive_projects ∧
      (defaultInactive p).status = "configured_inactive") ∧
    (∀ st ∈ c.active_projects, st.status = "active") ∧
    (∀ st ∈ c.configured_inactive_projects, st.status ≠ "active") := by
  unfold classify_projects at h
  dsimp only at h
  by_cases hp : projects = []
  · rw [if_pos hp] at h; exact absurd h (by simp)
  · rw [if_neg hp] at h
    injection h with h
    subst h
    dsimp only
    rw [classifyFold_eq]
    dsimp only
    set L := projects.map (classifyStep (thirtyDaysAgo nowUs) env) with hL
    refine ⟨rfl, rfl, rfl, ?_, ?_, ?_, ?_, ?_⟩
    · have hperm := (List.filter_append_perm (fun st => decide (st.status = "active")) L).length_eq
      rw [List.length_append] at hperm
      have hLen : L.length = projects.length := by rw [hL]; exact List.length_map _ _
      omega
    · exact List.filter_append_perm _ L
    · intro p hp2 hr
      refine ⟨?_, rfl⟩
      have hmem : defaultInactive p ∈ L := by
        rw [hL]
        have hstep : defaultInactive p = classifyStep (thirtyDaysAgo nowUs) env p := by
          unfold classifyStep; rw [hr]
        rw [hstep]
        exact List.mem_map_of_mem _ hp2
      refine List.mem_filter.mpr ⟨hmem, ?_⟩
      simp [defaultInactive]
    · intro st hst
      have hf := (List.mem_filter.mp hst).2
      simpa using hf
    · intro st hst
      have hf := (List.mem_filter.mp hst).2
      simpa using hf

/-- Claim C1, witness: classifying the single project `projD` when its
future raises yields the aggregate `classD`, whose configured-inactive
list holds the default record for `projD`. -/
theorem classify_projects_partition_witness :
    defaultInactive projD ∈ classD.configured_inactive_projects ∧
    (defaultInactive projD).status = "configured_inactive" :=
  (classify_projects_partition 0 (fun _ => ClassifyItem.raised) [projD] classD
    (by decide)).2.2.2.2.2.1 projD (by decide) rfl

/-- Claim C2, counterexample: with one project whose fetch future times
out, the collector's output list is empty, so the output size differs
from the input size — the claimed per-project failure result does not
exist in the output. -/
theorem collect_output_size_counterexample :
    (collectQualityMetrics (fun _ => ItemRes.timeout) [projC]).1.length
      ≠ ([projC] : List SonarProject).length := by decide

/-- Claim C2, amended: after the bounded collection returns, every project
was visited exactly once (the progress count equals the input size), and
the output is exactly the list of successful per-project results in input
order — failed projects contribute no output entry, so the output size is
at most (not equal to) the input size. -/
theorem collect_success_only_spec (env : SonarProject → ItemRes)
    (projects : List SonarProject) :
    (collectQualityMetrics env projects).2 = projects.length ∧
    (collectQualityMetrics env projects).1 =
      projects.filterMap (fun p =>
        match env p with
        | .completed fe => get_project_quality_metrics_safe fe p
        | .timeout => none) ∧
    (collectQualityMetrics env projects).1.length ≤ projects.length := by
  rw [collect_eq]
  exact ⟨rfl, rfl, List.length_filterMap_le _ _⟩

/-- Claim C3: evaluation at the failing input. A project whose last
analysis lies five days before the invocation time (in the SonarQube
`+0000` format the code itself documents) and which has 1200 lines of
code is classified `configured_inactive`: the parsed analysis date is
timezone-aware while the 30-day threshold is naive, so the `>` comparison
raises `TypeError`, which the per-project handler converts to the default
inactive record — even though the analysis is strictly inside the window
and the lines-of-code measure is positive. -/
theorem classifier_recent_project_marked_inactive :
    classifyBody tdaOct pRecent msNcloc = .error () ∧
    classify_single_project tdaOct pRecent (.ok msNcloc) = defaultInactive pRecent ∧
    (classify_single_project tdaOct pRecent (.ok msNcloc)).status = "configured_inactive" ∧
    pyFromIso (normalizeDate "2025-10-07T10:30:45+0000")
      = some ⟨toUs 2025 10 7 10 30 45, some 0⟩ ∧
    tdaOct.us < toUs 2025 10 7 10 30 45 ∧
    0 < intDigitMeasure (measureLookup msNcloc "ncloc") := by decide

/-- Claim C4: the classifier's date normalization turns both a trailing
`Z` and a numeric `+0000` offset into the accepted `+00:00` form (shown
generally for any prefix free of `Z` and `+`, and concretely for a full
timestamp, which parses to the same aware datetime under both encodings);
and an unparseable date string makes the recency computation return
`False` rather than raising. -/
theorem date_parsing_tolerance (l : List Char) (s : String) (tda : PyDateTime)
    (hZ : 'Z' ∉ l) (hP : '+' ∉ l)
    (hbad : pyFromIsoChars (normalizeDateChars s.toList) = none) :
    normalizeDateChars (l ++ ['Z']) = l ++ plusColon ∧
    normalizeDateChars (l ++ ['+', '0', '0', '0', '0']) = l ++ plusColon ∧
    pyFromIso (normalizeDate "2024-01-15T10:30:45Z")
      = some ⟨toUs 2024 1 15 10 30 45, some 0⟩ ∧
    pyFromIso (normalizeDate "2024-01-15T10:30:45+0000")
      = some ⟨toUs 2024 1 15 10 30 45, some 0⟩ ∧
    hasRecentCompute tda (some s) = .ok false := by
  refine ⟨?_, ?_, by decide, by decide, ?_⟩
  · unfold normalizeDateChars
    rw [replaceZChars_notin hZ]
    have h1 : replaceZChars ['Z'] = plusColon := by decide
    rw [h1, replacePlus0000_notin hP]
    have h2 : replacePlus0000 plusColon = plusColon := by decide
    rw [h2]
  · unfold normalizeDateChars
    rw [replaceZChars_notin hZ]
    have h1 : replaceZChars ['+', '0', '0', '0', '0'] = ['+', '0', '0', '0', '0'] := by decide
    rw [h1, replacePlus0000_notin hP]
    have h2 : replacePlus0000 ['+', '0', '0', '0', '0'] = plusColon := by decide
    rw [h2]
  · unfold hasRecentCompute
    dsimp only
    by_cases hs : s = ""
    · rw [if_pos hs]
    · rw [if_neg hs, hbad]

/-- Claim C4, witness: instantiated at the timestamp prefix
`2024-01-15T10:30:45`, the unparseable date `not-a-date` and a naive
threshold. -/
theorem date_parsing_tolerance_witness :
    normalizeDateChars ("2024-01-15T10:30:45".toList ++ ['Z'])
      = "2024-01-15T10:30:45".toList ++ plusColon ∧
    normalizeDateChars ("2024-01-15T10:30:45".toList ++ ['+', '0', '0', '0', '0'])
      = "2024-01-15T10:30:45".toList ++ plusColon ∧
    pyFromIso (normalizeDate "2024-01-15T10:30:45Z")
      = some ⟨toUs 2024 1 15 10 30 45, some 0⟩ ∧
    pyFromIso (normalizeDate "2024-01-15T10:30:45+0000")
      = some ⟨toUs 2024 1 15 10 30 45, some 0⟩ ∧
    hasRecentCompute ⟨0, none⟩ (some "not-a-date") = .ok false :=
  date_parsing_tolerance "2024-01-15T10:30:45".toList "not-a-date" ⟨0, none⟩
    (by decide) (by decide) (by decide)

/-- Claim C5, counterexample: two projects with distinct keys whose fetch
sequences raise produce the identical failed outcome `None`, so the
failed outcome carries neither the project's identity nor a reason. -/
theorem get_safe_failure_identity_counterexample :
    get_project_quality_metrics_safe feFail projA = none ∧
    get_project_quality_metrics_safe feFail projB = none ∧
    projA.key ≠ projB.key ∧
    get_project_quality_metrics_safe feFail projA
      = get_project_quality_metrics_safe feFail projB := by decide

/-- Claim C5, amended: the per-project fetcher returns either a
`QualityMetrics` record — with gate status defaulting to `NONE` without
gate data and each measure field `None` when its key is absent — or the
bare failure sentinel `None` (carrying no identity or reason); an
exception in either call yields `None` and never escapes. -/
theorem get_safe_outcome_spec (fe : FetchEnv) (p : SonarProject) :
    (fe.gate = .error () → get_project_quality_metrics_safe fe p = none) ∧
    (fe.measures = .error () → get_project_quality_metrics_safe fe p = none) ∧
    (∀ g ms, fe.gate = .ok g → fe.measures = .ok ms →
      get_project_quality_metrics_safe fe p = some (buildQualityMetrics p g ms)) ∧
    (∀ (ms : List ProjectMeasure) (k : String),
      (∀ m ∈ ms, m.metric ≠ k) → measureLookup ms k = none) := by
  refine ⟨?_, ?_, ?_, ?_⟩
  · intro h
    unfold get_project_quality_metrics_safe getSafeBody
    rw [h]
    rfl
  · intro h
    unfold get_project_quality_metrics_safe getSafeBody
    rcases hg : fe.gate with _ | g
    · rfl
    · rw [h]
      rfl
  · intro g ms hg hm
    unfold get_project_quality_metrics_safe getSafeBody
    rw [hg, hm]
    rfl
  · intro ms k h
    unfold measureLookup
    have hfind : ms.reverse.find? (fun m => m.metric = k) = none := by
      rw [List.find?_eq_none]
      intro m hm
      simp [h m (List.mem_reverse.mp hm)]
    rw [hfind]

/-- Claim C5, witness: with no gate data and no measures, the fetcher
returns the record with gate status `NONE` and all measure fields unset. -/
theorem get_safe_outcome_spec_witness :
    get_project_quality_metrics_safe feEmpty projA
      = some (buildQualityMetrics projA none []) :=
  (get_safe_outcome_spec feEmpty projA).2.2.1 none [] rfl rfl

/-- Claim C6, counterexample: the empty string is a non-null input that is
not returned unchanged — the falsy test maps it to `N/A`. -/
theorem get_rating_label_empty_counterexample : get_rating_label (some "") ≠ "" := by decide

/-- Claim C6, amended: `get_rating_label` maps null and the empty string
to `N/A`, maps the ratings 1 to 5 to the letters A to E, and returns
every other nonempty input unchanged. -/
theorem get_rating_label_spec :
    get_rating_label none = "N/A" ∧ get_rating_label (some "") = "N/A" ∧
    get_rating_label (some "1") = "A" ∧ get_rating_label (some "2") = "B" ∧
    get_rating_label (some "3") = "C" ∧ get_rating_label (some "4") = "D" ∧
    get_rating_label (some "5") = "E" ∧
    ∀ r : String, r ≠ "" → r ≠ "1" → r ≠ "2" → r ≠ "3" → r ≠ "4" → r ≠ "5" →
      get_rating_label (some r) = r := by
  refine ⟨rfl, by decide, by decide, by decide, by decide, by decide, by decide, ?_⟩
  intro r h0 h1 h2 h3 h4 h5
  unfold get_rating_label
  dsimp only
  rw [if_neg h0]
  have hlk : ratings.lookup r = none := by
    unfold ratings
    simp only [List.lookup,
      show (r == "1") = false from beq_eq_false_iff_ne.mpr h1,
      show (r == "2") = false from beq_eq_false_iff_ne.mpr h2,
      show (r == "3") = false from beq_eq_false_iff_ne.mpr h3,
      show (r == "4") = false from beq_eq_false_iff_ne.mpr h4,
      show (r == "5") = false from beq_eq_false_iff_ne.mpr h5]
  rw [hlk]
  rfl

/-- Claim C6, witness: the pass-through case at the input `X`. -/
theorem get_rating_label_spec_witness : get_rating_label (some "X") = "X" :=
  get_rating_label_spec.2.2.2.2.2.2.2 "X" (by decide) (by decide) (by decide) (by decide)
    (by decide) (by decide)

/-- Claim C7: technical-debt formatting with an 8-hour day — 480 minutes
gives the one-day-zero-hours label, 600 the one-day-two-hours label, 120
the plain two-hours label (no day part), and null or non-integer input
gives `N/A` (the day label is the French `j`). -/
theorem format_technical_debt_spec :
    format_technical_debt (some "480") = "1j 0h" ∧
    format_technical_debt (some "600") = "1j 2h" ∧
    format_technical_debt (some "120") = "2h" ∧
    format_technical_debt none = "N/A" ∧
    ∀ s : String, pyIntParse s = none → format_technical_debt (some s) = "N/A" := by
  refine ⟨by decide, by decide, by decide, rfl, ?_⟩
  intro s h
  unfold format_technical_debt
  dsimp only
  by_cases hs : s = ""
  · rw [if_pos hs]
  · rw [if_neg hs, h]

/-- Claim C7, witness: the non-integer input `abc` yields `N/A`. -/
theorem format_technical_debt_spec_witness : format_technical_debt (some "abc") = "N/A" :=
  format_technical_debt_spec.2.2.2.2 "abc" (by decide)

/-- Claim C8, counterexample: generating the authentication headers for a
stored configuration whose URL has a trailing slash rewrites the stored
URL — the stored configuration is not left unchanged. -/
theorem auth_headers_mutation_counterexample :
    get_auth_headers (some cfgSlash) = .ok (cfgStripped, hdrTok) ∧
    cfgSlash.url ≠ cfgStripped.url := by decide

/-- Claim C8, amended: header generation leaves the token and the
organization unchanged but replaces the stored URL by its
trailing-slash-stripped form; the stored configuration is a fixed point
afterwards, so only the first call can change it. -/
theorem auth_headers_config_effect_spec (c c2 : SonarQubeConfig) (h : HttpHeaders)
    (heq : get_auth_headers (some c) = .ok (c2, h)) :
    c2.token = c.token ∧ c2.organization = c.organization ∧
    c2.url = rstripSlash c.url ∧
    get_auth_headers (some c2) = .ok (c2, h) := by
  unfold get_auth_headers at heq ⊢
  injection heq with heq
  injection heq with hcfg hh
  subst hcfg
  subst hh
  refine ⟨rfl, rfl, rfl, ?_⟩
  dsimp only
  rw [rstripSlash_idem]

/-- Claim C8, witness: instantiated at the slash-terminated
configuration and its stripped form. -/
theorem auth_headers_config_effect_spec_witness :
    cfgStripped.token = cfgSlash.token ∧
    cfgStripped.organization = cfgSlash.organization ∧
    cfgStripped.url = rstripSlash cfgSlash.url ∧
    get_auth_headers (some cfgStripped) = .ok (cfgStripped, hdrTok) :=
  auth_headers_config_effect_spec cfgSlash cfgStripped hdrTok (by decide)

/-- Claim C10: `get_all_projects` issues one single search request with
page size 500 and no pagination loop, so the returned listing is the
conversion of the single returned page: it never holds more than 500
projects, and holds exactly 500 when the server hosts more. -/
theorem get_all_projects_page_bound (cfg : SonarQubeConfig) (state : List ServerComponent)
    (l : List SonarProject) (h : get_all_projects (some cfg) state = .ok l) :
    l = (serverSearch state 500).map componentToProject ∧
    l.length ≤ 500 ∧
    (500 < state.length → l.length = 500) := by
  unfold get_all_projects at h
  injection h with h
  subst h
  refine ⟨rfl, ?_, ?_⟩
  · unfold serverSearch
    rw [List.length_map, List.length_take]
    omega
  · intro hlen
    unfold serverSearch
    rw [List.length_map, List.length_take]
    omega

/-- Claim C10, witness: a server hosting 600 projects yields a listing of
exactly 500. -/
theorem get_all_projects_page_bound_witness :
    listing500 = (serverSearch state600 500).map componentToProject ∧
    listing500.length ≤ 500 ∧
    (500 < state600.length → listing500.length = 500) :=
  get_all_projects_page_bound ⟨"u", "t", ""⟩ state600 listing500 rfl
